import Mathlib

/-!
Shallow embedding of `src/multisig.rs` from the spawn-multisig repository.

The Rust module defines one struct, `MultiSig`, holding a `HashSet<PublicKey>`
of signers, a `Vec<Signature>` of collected signatures, a `usize` threshold and
an ethers contract handle, together with four operations: `new`,
`add_signature`, `is_valid` and `submit_transaction`, and the error enum
`MultiSigError`.

Modelling choices:
* `PublicKey`, `Signature`, `Message` are opaque values compared by identity in
  the source; they are modelled as `Nat`.
* The `Secp256k1<VerifyOnly>` context is only interrogated through
  `secp.verify_ecdsa(message, &sig, pubkey).is_ok()`; since it is an external
  cryptographic primitive passed in by the caller, it is modelled as the
  boolean verification function itself.
* `HashSet<PublicKey>` built by `signers.into_iter().collect()` is modelled as
  the duplicate-free list `signers.dedup`; the only operation performed on it
  is `.iter().any(...)`, which is order-insensitive.
* `Vec<Signature>` is a `List Signature`; `Vec::contains` is list membership
  and `Vec::push` appends at the end.
* `assert!` in `MultiSig::new` panics (unwinds the process) on failure; the
  panic is modelled as `Option.none`.  A panic is not a returned error value:
  `MultiSigError` has no construction-time variant.
* `&mut self` methods are modelled by explicit state passing: they return the
  pair (result, updated state).
* The ethers contract handle is used only through
  `self.contract.client().send_transaction(tx, None)`; that external capability
  is modelled as a function from the prepared transaction request to either a
  transaction hash or an error string.  Address parsing (`to.parse()`, also an
  external primitive) is modelled as an injected parser function.
-/

/-- secp256k1 public key, compared by identity. -/
abbrev PublicKey := Nat

/-- ECDSA signature value, compared by raw value (the source derives `PartialEq`
from the library type and `Vec::contains` compares raw signature values). -/
abbrev Signature := Nat

/-- 32-byte message digest. -/
abbrev Message := Nat

/-- Model of the `Secp256k1<VerifyOnly>` context: the external verification
primitive `secp.verify_ecdsa(message, &sig, pubkey).is_ok()` as a boolean
function. -/
abbrev Secp256k1 := Message → Signature → PublicKey → Bool

/-- Ethereum address, the result of parsing the `to` string. -/
abbrev Address := Nat

/-- Model of `ethers::types::TransactionRequest` restricted to the three fields
the source sets (the rest are defaulted). -/
structure TransactionRequest where
  toAddr : Option Address
  value : Option Nat
  data : Option (List Nat)
  deriving Repr, DecidableEq

/-- Model of `Contract<Arc<Provider<Http>>>`: the only behaviour the source uses
is `contract.client().send_transaction(tx, None)`, modelled as a function from
the transaction request to either a transaction hash or an error string. -/
structure Contract where
  send : TransactionRequest → Except String String

/-- The error enum `MultiSigError` from `src/multisig.rs`, variant for
variant.  Note there is no `UnknownSigner` and no construction-time variant. -/
inductive MultiSigError where
  | InvalidSignature
  | ThresholdNotReached (valid : Nat) (threshold : Nat)
  | TransactionFailed (msg : String)
  | InvalidAddress
  deriving Repr, DecidableEq

/-- The `MultiSig` struct: unique set of signers (`HashSet`, modelled as a
duplicate-free list), collected signatures (`Vec`), required threshold, and the
contract handle. -/
structure MultiSig where
  signers : List PublicKey
  signatures : List Signature
  threshold : Nat
  contract : Contract

/-- `MultiSig::new`: asserts `threshold > 0 && threshold <= signers.len()`
(against the raw input vector, before deduplication) and then collects the
signers into a `HashSet` (deduplicating) with an empty signature list.  The
`assert!` panic is modelled as `none`. -/
def MultiSig.new (signers : List PublicKey) (threshold : Nat)
    (contract : Contract) : Option MultiSig :=
  if threshold > 0 ∧ threshold ≤ signers.length then
    some { signers := signers.dedup
           signatures := []
           threshold := threshold
           contract := contract }
  else
    none

/-- `MultiSig::add_signature`: returns `Ok(())` without touching the state when
the exact signature value is already stored; otherwise accepts and pushes the
signature iff it verifies under at least one registered signer (the source
iterates `self.signers` with `.any`; there is no claimed-identity parameter);
otherwise fails with `InvalidSignature`.  `&mut self` is modelled by returning
the updated state alongside the result. -/
def MultiSig.add_signature (self : MultiSig) (sig : Signature)
    (message : Message) (secp : Secp256k1) :
    Except MultiSigError Unit × MultiSig :=
  if sig ∈ self.signatures then
    (Except.ok (), self)
  else if self.signers.any (fun pubkey => secp message sig pubkey) then
    (Except.ok (), { self with signatures := self.signatures ++ [sig] })
  else
    (Except.error MultiSigError.InvalidSignature, self)

/-- The count computed by `MultiSig::is_valid`: the number of stored signature
values that verify under at least one registered signer. -/
def MultiSig.valid_signatures (self : MultiSig) (message : Message)
    (secp : Secp256k1) : Nat :=
  (self.signatures.filter (fun sig =>
    self.signers.any (fun pubkey => secp message sig pubkey))).length

/-- `MultiSig::is_valid`: succeeds iff the count of stored signature values
valid under some registered signer meets the threshold, else fails with
`ThresholdNotReached(valid_signatures, threshold)`.  Takes `&self`: it reads
the state and records nothing. -/
def MultiSig.is_valid (self : MultiSig) (message : Message)
    (secp : Secp256k1) : Except MultiSigError Unit :=
  if self.valid_signatures message secp ≥ self.threshold then
    Except.ok ()
  else
    Except.error
      (MultiSigError.ThresholdNotReached (self.valid_signatures message secp)
        self.threshold)

/-- `MultiSig::submit_transaction`: parses the destination address (failure is
`InvalidAddress`), prepares the transaction request and hands it to the
contract client; a transport error becomes `TransactionFailed`.  The external
address parser is injected like the secp context in the other methods.  Note:
the method reads only `self.contract`; it performs no check of the collected
signatures or the threshold. -/
def MultiSig.submit_transaction (self : MultiSig) (toAddr : String) (value : Nat)
    (data : List Nat) (parseAddress : String → Option Address) :
    Except MultiSigError String :=
  match parseAddress toAddr with
  | none => Except.error MultiSigError.InvalidAddress
  | some address =>
    let tx : TransactionRequest :=
      { toAddr := some address, value := some value, data := some data }
    match self.contract.send tx with
    | Except.ok txHash => Except.ok ("Transaction hash: " ++ txHash)
    | Except.error e => Except.error (MultiSigError.TransactionFailed e)

/-- Spec-side definition, following the spec text (section 8): the number of
distinct registered signers having at least one valid submitted signature over
the message.  Used only to compare against the count the code actually uses. -/
def distinct_approvers (self : MultiSig) (message : Message)
    (secp : Secp256k1) : Nat :=
  (self.signers.filter (fun pubkey =>
    self.signatures.any (fun sig => secp message sig pubkey))).length

/-- A concrete contract handle whose client always reports success. -/
def okContract : Contract := ⟨fun _ => Except.ok "0xabc"⟩

/-- A concrete verifier under which exactly the signature values 10 and 11
verify, and only under public key 1, over message 0: two distinct valid
signature values produced by the same registered signer. -/
def vOnlyKeyOne : Secp256k1 := fun m s k => (s == 10 || s == 11) && k == 1 && m == 0

/-- A concrete verifier under which exactly signature 5 verifies, and only
under public key 2 (the second registered key), over message 0. -/
def vOnlyKeyTwo : Secp256k1 := fun m s k => s == 5 && k == 2 && m == 0

/-- A concrete verifier under which exactly signature 7 verifies, and only
under public key 1, over message 0. -/
def vSigSeven : Secp256k1 := fun m s k => s == 7 && k == 1 && m == 0

/-- Two-signer wallet with threshold 2 and no signatures yet. -/
def msA : MultiSig :=
  { signers := [1, 2], signatures := [], threshold := 2, contract := okContract }

/-- The wallet `msA` after submitting signatures 10 and 11 (both valid only
under signer 1, per `vOnlyKeyOne`). -/
def msA2 : MultiSig :=
  ((msA.add_signature 10 0 vOnlyKeyOne).2.add_signature 11 0 vOnlyKeyOne).2

/-- One-signer wallet with threshold 1 that already holds signature 7. -/
def msC : MultiSig :=
  { signers := [1], signatures := [7], threshold := 1, contract := okContract }

/-- One-signer wallet with threshold 1 and no signatures yet. -/
def msD : MultiSig :=
  { signers := [1], signatures := [], threshold := 1, contract := okContract }

/-- Two-signer wallet with threshold 2 and no signatures: well below its
threshold. -/
def msE : MultiSig :=
  { signers := [1, 2], signatures := [], threshold := 2, contract := okContract }

/-- A concrete address parser that accepts every string. -/
def parseOk : String → Option Address := fun _ => some 42

/-- C1: the claim says the approved count used by the threshold decision is the
number of distinct registered signers with a valid signature, so two distinct
valid signatures from the same signer raise it by 1, not 2.  The code counts
stored signature values instead: after submitting signatures 10 and 11, both
valid only under signer 1, `is_valid` counts 2, the distinct-signer count is 1,
and the threshold-2 decision succeeds on a single signer's approvals. -/
theorem signature_value_counting_bug :
    msA2.signatures = [10, 11] ∧
    msA2.valid_signatures 0 vOnlyKeyOne = 2 ∧
    distinct_approvers msA2 0 vOnlyKeyOne = 1 ∧
    msA2.is_valid 0 vOnlyKeyOne = Except.ok () := by
  refine ⟨rfl, rfl, rfl, rfl⟩

/-- C2 counterexample: the claim says a signature is accepted only if it
verifies under the key the submitter claims, and that the implementation never
scans all registered keys.  `add_signature` takes no claimed-identity parameter
at all: with registered keys 1 and 2, a signature that fails under key 1 and
verifies only under key 2 is accepted — the implementation found the matching
key by trying every registered key. -/
theorem accepts_unclaimed_key_signature :
    vOnlyKeyTwo 0 5 1 = false ∧
    vOnlyKeyTwo 0 5 2 = true ∧
    (msA.add_signature 5 0 vOnlyKeyTwo).1 = Except.ok () ∧
    (msA.add_signature 5 0 vOnlyKeyTwo).2.signatures = [5] := by
  refine ⟨rfl, rfl, rfl, rfl⟩

/-- C2 amended: a fresh signature is accepted iff it verifies under at least
one registered key; there is no claimed identity, and acceptance is decided by
scanning every registered key. -/
theorem add_signature_accepts_iff_any_registered_key_verifies
    (self : MultiSig) (sig : Signature) (message : Message) (secp : Secp256k1)
    (hfresh : sig ∉ self.signatures) :
    (self.add_signature sig message secp).1 = Except.ok () ↔
      self.signers.any (fun pubkey => secp message sig pubkey) = true := by
  rw [MultiSig.add_signature, if_neg hfresh]
  split
  · simp_all
  · simp_all

/-- C2 witness: the amended acceptance condition evaluated at a concrete
input. -/
theorem add_signature_any_key_witness :
    (msA.add_signature 5 0 vOnlyKeyTwo).1 = Except.ok () :=
  (add_signature_accepts_iff_any_registered_key_verifies msA 5 0 vOnlyKeyTwo
    (by decide)).mpr (by decide)

/-- C3 counterexample: the claim says keys are deduplicated before the size
check, so two entries of the same key count once toward the threshold bound.
The code asserts `threshold <= signers.len()` on the raw input vector and
deduplicates only afterwards: the list `[7, 7]` with threshold 2 is accepted
although it holds a single distinct key. -/
theorem new_accepts_threshold_above_distinct_keys :
    (MultiSig.new [7, 7] 2 okContract).isSome = true ∧
    ([7, 7] : List PublicKey).dedup.length = 1 := by
  refine ⟨rfl, by decide⟩

/-- C3 amended: construction fails iff the threshold is 0 or exceeds the raw
length of the input key list, duplicates counted; deduplication happens only
when storing the set, after the check (an empty input list always fails, since
no positive threshold can be at most 0). -/
theorem new_fails_iff_threshold_zero_or_above_raw_length
    (keys : List PublicKey) (threshold : Nat) (contract : Contract) :
    MultiSig.new keys threshold contract = none ↔
      threshold = 0 ∨ keys.length < threshold := by
  rw [MultiSig.new]
  split <;> rename_i h <;> simp_all <;> omega

/-- C4 counterexample: the claim says the threshold decision succeeds on
exactly one call and that every later call fails with `ThresholdNotReached`.
`is_valid` takes the wallet immutably and records nothing, so a second call
evaluates the very same expression on the unchanged state: on a wallet meeting
its threshold it succeeds again instead of returning
`ThresholdNotReached(1, 1)` as single-use issuance would require. -/
theorem is_valid_repeatable_after_threshold :
    msC.is_valid 0 vSigSeven = Except.ok () ∧
    msC.is_valid 0 vSigSeven ≠
      Except.error (MultiSigError.ThresholdNotReached 1 1) := by
  refine ⟨rfl, fun h => Except.noConfusion h⟩

/-- C4 amended: `is_valid` is a repeatable pure predicate, not a single-use
token: every call succeeds iff the count of stored signature values valid
under some registered key meets the threshold, and every call below the
threshold fails with `ThresholdNotReached` carrying that count and the
threshold. -/
theorem is_valid_pure_threshold_predicate (self : MultiSig) (message : Message)
    (secp : Secp256k1) :
    (self.is_valid message secp = Except.ok () ↔
      self.threshold ≤ self.valid_signatures message secp) ∧
    (self.valid_signatures message secp < self.threshold →
      self.is_valid message secp =
        Except.error (MultiSigError.ThresholdNotReached
          (self.valid_signatures message secp) self.threshold)) := by
  rw [MultiSig.is_valid]
  constructor
  · split <;> rename_i h <;> simp_all
  · intro hlt
    rw [if_neg (by omega)]

/-- C4 witness: the amended predicate evaluated on a wallet meeting its
threshold. -/
theorem is_valid_pure_threshold_predicate_witness :
    msC.is_valid 0 vSigSeven = Except.ok () :=
  (is_valid_pure_threshold_predicate msC 0 vSigSeven).1.mpr (by decide)

/-- C5 counterexample: the claim says a submission from an unregistered key
fails with `UnknownSigner`, an error distinct from `InvalidSignature`.  The
error enum has no `UnknownSigner` variant and `add_signature` takes no claimed
key: a signature verifying under no registered key is rejected with
`InvalidSignature`, the only rejection the code can give, with the state
unchanged. -/
theorem unknown_key_yields_invalid_signature_error :
    (msD.add_signature 9 0 vSigSeven).1 =
      Except.error MultiSigError.InvalidSignature ∧
    (msD.add_signature 9 0 vSigSeven).2 = msD := by
  refine ⟨rfl, rfl⟩

/-- C5 amended: a fresh signature that verifies under no registered key is
rejected with `InvalidSignature` (the single rejection variant; there is no
`UnknownSigner`), and the wallet state is returned unchanged. -/
theorem no_registered_key_verifies_invalid_signature
    (self : MultiSig) (sig : Signature) (message : Message) (secp : Secp256k1)
    (hfresh : sig ∉ self.signatures)
    (hver : ∀ pubkey ∈ self.signers, secp message sig pubkey = false) :
    self.add_signature sig message secp =
      (Except.error MultiSigError.InvalidSignature, self) := by
  have hany : self.signers.any (fun pubkey => secp message sig pubkey) = false := by
    simp only [List.any_eq_false]
    intro k hk
    simp [hver k hk]
  rw [MultiSig.add_signature, if_neg hfresh, hany]
  simp

/-- C5 witness: the amended rejection evaluated at a concrete unregistered
submission. -/
theorem invalid_signature_witness :
    msD.add_signature 9 0 vSigSeven =
      (Except.error MultiSigError.InvalidSignature, msD) :=
  no_registered_key_verifies_invalid_signature msD 9 0 vSigSeven
    (by decide) (by decide)

/-- C6: every `add_signature` call that returns an error leaves the wallet
unchanged, so in particular the count used by the threshold decision is
unchanged; only the accepting branch (valid fresh signature) mutates the
state. -/
theorem errors_leave_state_unchanged
    (self : MultiSig) (sig : Signature) (message : Message) (secp : Secp256k1)
    (e : MultiSigError)
    (herr : (self.add_signature sig message secp).1 = Except.error e) :
    (self.add_signature sig message secp).2 = self ∧
    (self.add_signature sig message secp).2.valid_signatures message secp =
      self.valid_signatures message secp := by
  by_cases h1 : sig ∈ self.signatures
  · rw [MultiSig.add_signature, if_pos h1] at herr
    exact Except.noConfusion herr
  · by_cases h2 : self.signers.any (fun pubkey => secp message sig pubkey) = true
    · rw [MultiSig.add_signature, if_neg h1, if_pos h2] at herr
      exact Except.noConfusion herr
    · have hstate : (self.add_signature sig message secp).2 = self := by
        rw [MultiSig.add_signature, if_neg h1, if_neg h2]
      exact ⟨hstate, by rw [hstate]⟩

/-- C6 witness: a non-verifying submission from a concrete wallet returns
`InvalidSignature` and leaves the wallet and its valid-signature count
unchanged. -/
theorem errors_leave_state_unchanged_witness :
    (msD.add_signature 9 0 vSigSeven).2 = msD ∧
    (msD.add_signature 9 0 vSigSeven).2.valid_signatures 0 vSigSeven =
      msD.valid_signatures 0 vSigSeven :=
  errors_leave_state_unchanged msD 9 0 vSigSeven
    MultiSigError.InvalidSignature rfl

/-- C7: submitting the same valid fresh signature twice yields the accepting
outcome (`Ok` with the signature appended) on the first call and the
duplicate-ignoring outcome (`Ok` with the state untouched) on the second, and
the count used by the threshold decision rises by exactly 1 across the two
calls.  In the source both outcomes are `Ok(())`; they differ only in the
mutation (and the log line), which is what this theorem distinguishes. -/
theorem duplicate_resubmission_idempotent
    (self : MultiSig) (sig : Signature) (message : Message) (secp : Secp256k1)
    (hfresh : sig ∉ self.signatures)
    (hvalid : self.signers.any (fun pubkey => secp message sig pubkey) = true) :
    (self.add_signature sig message secp).1 = Except.ok () ∧
    (self.add_signature sig message secp).2.signatures =
      self.signatures ++ [sig] ∧
    ((self.add_signature sig message secp).2.add_signature sig message
        secp).1 = Except.ok () ∧
    ((self.add_signature sig message secp).2.add_signature sig message
        secp).2 = (self.add_signature sig message secp).2 ∧
    ((self.add_signature sig message secp).2.add_signature sig message
        secp).2.valid_signatures message secp =
      self.valid_signatures message secp + 1 := by
  have hfirst : self.add_signature sig message secp =
      (Except.ok (), { self with signatures := self.signatures ++ [sig] }) := by
    rw [MultiSig.add_signature, if_neg hfresh, if_pos hvalid]
  have hmem : sig ∈ self.signatures ++ [sig] := by
    simp
  have hsecond :
      ({ self with signatures := self.signatures ++ [sig] } :
          MultiSig).add_signature sig message secp =
        (Except.ok (), { self with signatures := self.signatures ++ [sig] }) := by
    rw [MultiSig.add_signature, if_pos hmem]
  have hcount :
      ({ self with signatures := self.signatures ++ [sig] } :
          MultiSig).valid_signatures message secp =
        self.valid_signatures message secp + 1 := by
    simp [MultiSig.valid_signatures, List.filter_append, hvalid]
  rw [hfirst]
  exact ⟨rfl, rfl, by rw [hsecond], by rw [hsecond], by rw [hsecond]; exact hcount⟩

/-- C7 witness: the double submission evaluated on a concrete wallet and a
concrete valid signature. -/
theorem duplicate_resubmission_idempotent_witness :
    (msD.add_signature 7 0 vSigSeven).1 = Except.ok () ∧
    (msD.add_signature 7 0 vSigSeven).2.signatures = msD.signatures ++ [7] ∧
    ((msD.add_signature 7 0 vSigSeven).2.add_signature 7 0 vSigSeven).1 =
      Except.ok () ∧
    ((msD.add_signature 7 0 vSigSeven).2.add_signature 7 0 vSigSeven).2 =
      (msD.add_signature 7 0 vSigSeven).2 ∧
    ((msD.add_signature 7 0 vSigSeven).2.add_signature 7 0
        vSigSeven).2.valid_signatures 0 vSigSeven =
      msD.valid_signatures 0 vSigSeven + 1 :=
  duplicate_resubmission_idempotent msD 7 0 vSigSeven (by decide) (by decide)

/-- C8 counterexample: the claim says a violating threshold makes construction
fail by returning a `ConfigError` value and that no core operation aborts the
process.  The source has no `ConfigError` type; construction uses `assert!`,
which panics (aborts the unwinding process) rather than returning a value.
The panic is modelled as `Option.none`: at threshold 0 construction yields no
wallet and no error value. -/
theorem new_panics_on_zero_threshold :
    MultiSig.new [1] 0 okContract = none := by
  rfl

/-- C8 amended: a violating threshold (zero, or larger than the raw input key
list) makes `new` fail by `assert!` panic — modelled as `none`, with no error
value returned; the other operations return their errors as `MultiSigError`
values. -/
theorem new_violating_threshold_panics (keys : List PublicKey)
    (threshold : Nat) (contract : Contract)
    (h : threshold = 0 ∨ keys.length < threshold) :
    MultiSig.new keys threshold contract = none := by
  rw [MultiSig.new, if_neg]
  omega

/-- C8 witness: the panic branch evaluated at a too-large threshold. -/
theorem new_violating_threshold_panics_witness :
    MultiSig.new [1] 3 okContract = none :=
  new_violating_threshold_panics [1] 3 okContract (Or.inr (by decide))

/-- C9 counterexample: the claim says the external submission capability runs
only after the threshold decision has succeeded, and at most once.
`submit_transaction` consults neither the signatures nor the threshold: on a
wallet whose threshold decision fails with `ThresholdNotReached(0, 2)`, the
transaction is still sent and succeeds (and nothing stops arbitrarily many
such calls). -/
theorem submit_transaction_unauthorized_succeeds :
    msE.is_valid 0 vSigSeven =
      Except.error (MultiSigError.ThresholdNotReached 0 2) ∧
    msE.submit_transaction "dst" 5 [1, 2] parseOk =
      Except.ok "Transaction hash: 0xabc" := by
  refine ⟨rfl, rfl⟩

/-- C9 amended: `submit_transaction` performs no authorization check — its
result depends only on the contract handle and the call arguments, never on
the collected signatures, the signer set or the threshold; gating and
once-only invocation are left entirely to the caller. -/
theorem submit_transaction_ignores_approval_state
    (s t : MultiSig) (hc : s.contract = t.contract)
    (toAddr : String) (value : Nat) (data : List Nat)
    (parseAddress : String → Option Address) :
    s.submit_transaction toAddr value data parseAddress =
      t.submit_transaction toAddr value data parseAddress := by
  rw [MultiSig.submit_transaction, MultiSig.submit_transaction, hc]

/-- C9 witness: an empty unauthorized wallet and a threshold-meeting wallet
with the same contract handle produce identical submission results. -/
theorem submit_transaction_ignores_approval_state_witness :
    msE.submit_transaction "dst" 5 [] parseOk =
      msC.submit_transaction "dst" 5 [] parseOk :=
  submit_transaction_ignores_approval_state msE msC rfl "dst" 5 [] parseOk

/-- C10: the duplicate check keeps the stored signature list free of repeated
values: starting from a duplicate-free list (and `new` stores the empty list),
`add_signature` returns a duplicate-free list, so every distinct signature
value occurs at most once and is counted at most once by the threshold
decision. -/
theorem signatures_nodup_invariant
    (self : MultiSig) (sig : Signature) (message : Message) (secp : Secp256k1)
    (h : self.signatures.Nodup) :
    (self.add_signature sig message secp).2.signatures.Nodup ∧
    ∀ s : Signature,
      (self.add_signature sig message secp).2.signatures.count s ≤ 1 := by
  have hnodup : (self.add_signature sig message secp).2.signatures.Nodup := by
    rw [MultiSig.add_signature]
    split
    · exact h
    · split
      · rename_i hfresh _
        simp [List.nodup_append, h, hfresh]
      · exact h
  exact ⟨hnodup, fun s => List.nodup_iff_count_le_one.mp hnodup s⟩

/-- C10 witness: the invariant evaluated on a concrete wallet accepting a
fresh signature. -/
theorem signatures_nodup_invariant_witness :
    (msD.add_signature 7 0 vSigSeven).2.signatures.Nodup ∧
    ∀ s : Signature,
      (msD.add_signature 7 0 vSigSeven).2.signatures.count s ≤ 1 :=
  signatures_nodup_invariant msD 7 0 vSigSeven (by decide)
